import Mathlib

/-!
Formal model of the execution engine of the `n8n-nodes-ethereum` community
nodes (`Ethereum`, `EthereumSign`, `EthereumCreateWallet`).

The per-item batch logic, parameter resolution, amount conversion and error
propagation are translated directly from the `execute` methods of the three
node classes.  External collaborators (the JSON-RPC provider, the ethers
wallet and contract objects, the random wallet generator) are modelled as
explicit environments supplied to the executors, matching the narrow contract
the engine uses.

Amount conversion in the source goes through JavaScript number arithmetic
(`parseFloat`, `*`, `Math.floor`, `10 ** d`).  JavaScript numbers are IEEE-754
binary64 values; here they are modelled exactly: a number is a rational
value, represented by an explicit numerator/denominator pair `Frac`, and
every operation rounds its exact rational result to the nearest binary64
value with ties to even (`roundToDouble`; normal range only — all inputs
appearing in this development are far from overflow and subnormal
territory).
-/

set_option maxRecDepth 16384

deriving instance DecidableEq for Except

namespace EthNodes

/-- An exact (not necessarily reduced) fraction `num / den` with `den > 0`
in all uses.  Doubles and exact decimal values are represented this way. -/
structure Frac where
  num : Int
  den : Nat
  deriving DecidableEq, Repr

/-- Product of exact fractions. -/
def Frac.mul (a b : Frac) : Frac := ⟨a.num * b.num, a.den * b.den⟩

/-- Quotient of exact fractions. -/
def Frac.div (a b : Frac) : Frac :=
  ⟨Int.sign b.num * a.num * (b.den : Int), a.den * b.num.natAbs⟩

/-- Negation of an exact fraction. -/
def Frac.neg (a : Frac) : Frac := ⟨-a.num, a.den⟩

/-- `Math.floor` of an exact fraction (floor, toward minus infinity). -/
def Frac.floor (a : Frac) : Int := Int.fdiv a.num (a.den : Int)

/-- Fuel-driven floor of the base-2 logarithm (the fuel only needs to exceed
the bit length of the argument; 512 covers every number in this
development). -/
def log2F : Nat → Nat → Nat
  | 0, _ => 0
  | f + 1, n => if n ≤ 1 then 0 else 1 + log2F f (n / 2)

/-- Floor of the base-2 logarithm of a natural number. -/
def natLog2 (n : Nat) : Nat := log2F 512 n

/-- Pick the rounded value from the floor `q` and remainder `r` of a
division by `den`: keep `q` below the midpoint, go to `q + 1` above it, and
break a tie toward the even neighbour. -/
def roundHalfEvenAux (q r : Int) (den : Nat) : Int :=
  if 2 * r < (den : Int) then q
  else if (den : Int) < 2 * r then q + 1
  else if q % 2 = 0 then q else q + 1

/-- Round the rational `num / den` (with `den > 0`) to the nearest integer,
ties to even — the IEEE-754 default rounding applied at integer granularity. -/
def roundHalfEven (num : Int) (den : Nat) : Int :=
  roundHalfEvenAux (Int.fdiv num (den : Int)) (num - Int.fdiv num (den : Int) * (den : Int)) den

/-- Floor of the base-2 logarithm of the positive rational `num / den`. -/
def floorLog2Q (num den : Nat) : Int :=
  let a := natLog2 num
  let b := natLog2 den
  if den * 2 ^ a ≤ num * 2 ^ b then (a : Int) - b else ((a : Int) - b) - 1

/-- Round a fraction to the nearest integer multiple of `2 ^ e` (returning
the multiplier), ties to even. -/
def roundAtExp (a : Frac) (e : Int) : Int :=
  if 0 ≤ e then roundHalfEven a.num (a.den * 2 ^ e.toNat)
  else roundHalfEven (a.num * ((2 ^ (-e).toNat : Nat) : Int)) a.den

/-- The value `roundAtExp a e * 2 ^ e` as a fraction. -/
def roundToDoublePosAux (a : Frac) (e : Int) : Frac :=
  if 0 ≤ e then ⟨roundAtExp a e * ((2 ^ e.toNat : Nat) : Int), 1⟩
  else ⟨roundAtExp a e, 2 ^ (-e).toNat⟩

/-- Round a positive fraction to the nearest binary64 value (normal range):
pick the exponent `e` with `2 ^ 52 ≤ a / 2 ^ e < 2 ^ 53` and round the
significand. -/
def roundToDoublePos (a : Frac) : Frac :=
  roundToDoublePosAux a (floorLog2Q a.num.toNat a.den - 52)

/-- Round a rational to the nearest binary64 value, ties to even.  Models the
value of a JavaScript number produced from an exact rational quantity. -/
def roundToDouble (a : Frac) : Frac :=
  if a.num = 0 then ⟨0, 1⟩
  else if 0 < a.num then roundToDoublePos a
  else Frac.neg (roundToDoublePos (Frac.neg a))

/-- Binary64 multiplication: exact product, then rounding. -/
def dmul (a b : Frac) : Frac := roundToDouble (a.mul b)

/-- Binary64 division: exact quotient, then rounding. -/
def ddiv (a b : Frac) : Frac := roundToDouble (a.div b)

/-- The exact rational `10 ^ d` for an integer exponent. -/
def qpow10 (d : Int) : Frac :=
  if 0 ≤ d then ⟨(10 ^ d.toNat : Nat), 1⟩ else ⟨1, 10 ^ (-d).toNat⟩

/-- The JavaScript value `10 ** d`: the binary64 value nearest `10 ^ d`. -/
def pow10Double (d : Int) : Frac := roundToDouble (qpow10 d)

/-- The JavaScript literal `1e18`.  `10 ^ 18 = 2 ^ 18 * 5 ^ 18` and
`5 ^ 18 < 2 ^ 53`, so the literal denotes exactly `10 ^ 18`. -/
def lit1e18 : Frac := ⟨(10 ^ 18 : Nat), 1⟩

/-- Value of a list of decimal digit characters. -/
def digitsVal (cs : List Char) : Nat :=
  cs.foldl (fun n c => 10 * n + (c.toNat - 48)) 0

/-- Exact rational value of a plain decimal string: optional sign, an integer
part, an optional fractional part (sign, digits, one dot, digits, with at
least one digit overall).  Models the grammar accepted by `parseFloat` on
the decimal forms the engine handles; exponent notation, hex forms, special
values and partial parses with trailing garbage are outside the modelled
fragment and map to `none` (as `NaN` does, since `BigInt(NaN)` throws). -/
def parseDecimal? (s : String) : Option Frac :=
  let cs := s.data
  let sgn : Int := if cs.head? = some '-' then -1 else 1
  let cs := if cs.head? = some '-' ∨ cs.head? = some '+' then cs.tail else cs
  let ip := cs.takeWhile Char.isDigit
  let rest := cs.dropWhile Char.isDigit
  match rest with
  | [] =>
    if ip.isEmpty then none
    else some ⟨sgn * (digitsVal ip : Int), 1⟩
  | '.' :: fr =>
    if fr.all Char.isDigit ∧ ¬(ip.isEmpty ∧ fr.isEmpty) then
      some ⟨sgn * ((digitsVal ip * 10 ^ fr.length + digitsVal fr : Nat) : Int), 10 ^ fr.length⟩
    else none
  | _ => none

/-- The integer denoted by a string under `BigInt(string)`: an empty string is
`0`, otherwise an optional sign followed by decimal digits; anything else
throws (`none`).  (Whitespace trimming and hex/octal/binary literal forms of
`BigInt` are outside the modelled fragment.) -/
def parseBigInt? (s : String) : Option Int :=
  let cs := s.data
  if cs.isEmpty then some 0
  else
    let sgn : Int := if cs.head? = some '-' then -1 else 1
    let ds := if cs.head? = some '-' ∨ cs.head? = some '+' then cs.tail else cs
    if ¬ds.isEmpty ∧ ds.all Char.isDigit then some (sgn * (digitsVal ds : Int)) else none

/-- The JavaScript value `parseFloat(s)`: the exact decimal value of the
string rounded to the nearest binary64. -/
def parseFloatD (s : String) : Option Frac :=
  (parseDecimal? s).map roundToDouble

/-- `BigInt(Math.floor(parseFloat(s) * 10 ** d))` — the ERC-20 human-amount
conversion of `Ethereum.execute` (`amountWei`, line 380). -/
def amountWeiOf (s : String) (d : Int) : Option Int :=
  (parseFloatD s).map fun x => Frac.floor (dmul x (pow10Double d))

/-- The native-transfer amount of `Ethereum.execute` (line 334):
`valueStr.includes('.') ? BigInt(Math.floor(parseFloat(valueStr) * 1e18))
: BigInt(valueStr)`. -/
def valueWeiOf (s : String) : Option Int :=
  if s.data.contains '.' then
    (parseFloatD s).map fun x => Frac.floor (dmul x lit1e18)
  else parseBigInt? s

/-- The spec's own description of `toBaseUnits` (kept for comparison with the
code's `amountWeiOf`): parse the decimal string exactly, multiply by
`10 ^ decimals`, truncate toward zero. -/
def toBaseUnitsSpec (s : String) (d : Nat) : Option Int :=
  (parseDecimal? s).map fun q => Int.tdiv (q.num * ((10 ^ d : Nat) : Int)) (q.den : Int)

/-- `(this.getNodeParameter('tokenDecimals', i) as number) || 18`
(`Ethereum.execute`, line 379): a falsy (zero) decimals value is replaced
by 18. -/
def effDecimals (d : Int) : Int :=
  if d = 0 then 18 else d

/-- Whitespace as stripped by JavaScript `String.prototype.trim` (the
whitespace classes actually occurring in this development). -/
def isJsSpace (c : Char) : Bool := c = ' ' ∨ c = '\t' ∨ c = '\n' ∨ c = '\r'

/-- JavaScript `s.trim()`. -/
def trimS (s : String) : String :=
  ⟨((s.data.dropWhile isJsSpace).reverse.dropWhile isJsSpace).reverse⟩

/-- A JSON scalar stored in an input record.  The engine coerces every
non-string scalar it reads to a string right after lookup (`String(v)` /
`JSON.stringify(v)`), so record values are modelled as either a string or
JSON `null`. -/
inductive JVal where
  | s (v : String)
  | null
  deriving DecidableEq, Repr

/-- One input record: the `json` object of an n8n item. -/
abbrev Record := List (String × JVal)

/-- `item.json[key]`: `none` models an absent key (`undefined`). -/
def lookupR (item : Record) (k : String) : Option JVal :=
  (item.find? fun p => p.1 == k).map Prod.snd

/-- The two legal values of every per-item "source" selector. -/
inductive Source where
  | parameter
  | input
  deriving DecidableEq, Repr

/-- The operation options of the `Ethereum` node. -/
inductive EthOp where
  | transfer
  | transferERC20
  | getBalance
  | getERC20Balance
  | getGas
  deriving DecidableEq, Repr

/-- The network identity reported by `provider.getNetwork()`. -/
structure Network where
  chainId : Int
  deriving DecidableEq, Repr

/-- `provider.getFeeData()`. -/
structure FeeData where
  gasPrice : Option Int
  maxFeePerGas : Option Int
  maxPriorityFeePerGas : Option Int
  deriving DecidableEq, Repr

/-- `provider.getBlock('latest')` (when a block is available). -/
structure Block where
  number : Int
  timestamp : Int
  deriving DecidableEq, Repr

/-- Result of a submitted transaction after `tx.wait()`:  the transaction
hash and sender together with the receipt's block number and status.
`fromAddr` stands for the source's `tx.from` (`from` is a Lean keyword). -/
structure TxResult where
  hash : String
  fromAddr : String
  blockNumber : Option Int
  status : Option Int
  deriving DecidableEq, Repr

/-- The errors the two `execute` methods raise (`NodeOperationError`s and
the errors thrown by collaborators).  `itemNumber` is the 1-based item
number used in the error messages (`Item i + 1 ...`). -/
inductive NodeErr where
  | rpcUrlRequired
  | rpcFailed (msg : String)
  | chainMismatch (declared observed : Int)
  | missingField (itemNumber : Nat) (fieldName : String)
  | emptyKey (itemNumber : Nat)
  | invalidKey (itemNumber : Nat)
  | addressRequired (itemNumber : Nat)
  | amountError (itemNumber : Nat)
  deriving DecidableEq, Repr

/-- `chainIdParam != null && chainIdParam > 0 ? Number(chainIdParam) : 1`. -/
def resolveChainId (p : Option Int) : Int :=
  match p with
  | some c => if 0 < c then c else 1
  | none => 1

/-- Item-level collaborators of the `Ethereum` node: provider queries,
wallet derivation and transaction submission.  `walletOf` returns `none`
when `new Wallet(key)` throws (invalid private key), otherwise the wallet's
address.  `sendNative key to value` and `sendErc20 key token to amount`
return the submitted transaction together with its awaited receipt. -/
structure EthEnv where
  feeData : FeeData
  latestBlock : Option Block
  balanceOf : String → Int
  erc20BalanceOf : String → String → Int
  erc20Decimals : String → Int
  walletOf : String → Option String
  sendNative : String → Option String → Int → TxResult
  sendErc20 : String → String → Option String → Int → TxResult

/-- The configuration surface of the `Ethereum` node (one value per
declared property; a parameter that the n8n expression engine resolves per
item is modelled as constant over the batch, as in a plain configuration). -/
structure EthConfig where
  operation : EthOp
  rpcUrl : String
  chainIdParam : Option Int
  privateKeyField : String
  toAddress : String
  toAddressSource : Source
  toAddressField : String
  valueWei : String
  valueSource : Source
  valueField : String
  tokenAddress : String
  erc20Amount : String
  erc20AmountSource : Source
  erc20AmountField : String
  tokenDecimals : Int
  address : String
  addressSource : Source
  addressField : String
  addressErc20 : String
  addressSourceErc20 : Source
  addressFieldErc20 : String

/-- Output record of `getGas`. -/
structure GasOutput where
  chainId : Int
  gasPrice : Option String
  maxFeePerGas : Option String
  maxPriorityFeePerGas : Option String
  blockNumber : Option String
  blockTimestamp : Option Int
  pairedItem : Nat
  deriving DecidableEq, Repr

/-- Output record of a native transfer.  `toAddr` stands for the source's
`to` field (`to` is a Lean token); it is `none` when the resolved recipient
was `undefined`/`null` (the source passes it through unchecked). -/
structure TransferOutput where
  chainId : Int
  hash : String
  fromAddr : String
  toAddr : Option String
  value : String
  blockNumber : Option String
  status : Option Int
  pairedItem : Nat
  deriving DecidableEq, Repr

/-- Output record of an ERC-20 transfer. -/
structure Erc20TransferOutput where
  chainId : Int
  hash : String
  fromAddr : String
  toAddr : Option String
  tokenAddress : String
  amount : String
  amountHuman : String
  blockNumber : Option String
  status : Option Int
  pairedItem : Nat
  deriving DecidableEq, Repr

/-- Output record of `getBalance`.  `balanceEth` holds the numeric value of
`Number(balance) / 1e18` (its decimal display string is not modelled). -/
structure BalanceOutput where
  chainId : Int
  address : String
  balanceWei : String
  balanceEth : Frac
  pairedItem : Nat
  deriving DecidableEq, Repr

/-- Output record of `getERC20Balance`; `balanceHuman` as in
`BalanceOutput.balanceEth`. -/
structure Erc20BalanceOutput where
  chainId : Int
  address : String
  tokenAddress : String
  balanceWei : String
  balanceHuman : Frac
  decimals : Int
  pairedItem : Nat
  deriving DecidableEq, Repr

/-- One output record of the `Ethereum` node. -/
inductive EthOutput where
  | gas (o : GasOutput)
  | xfer (o : TransferOutput)
  | xferErc20 (o : Erc20TransferOutput)
  | bal (o : BalanceOutput)
  | balErc20 (o : Erc20BalanceOutput)
  deriving DecidableEq, Repr

/-- The originating item index attached to an output record. -/
def EthOutput.pairedItem : EthOutput → Nat
  | .gas o => o.pairedItem
  | .xfer o => o.pairedItem
  | .xferErc20 o => o.pairedItem
  | .bal o => o.pairedItem
  | .balErc20 o => o.pairedItem

/-- The recipient of a transfer (`Ethereum.execute`, lines 321-325 and
366-370): the parameter, or the item's field cast unchecked (`as string`) —
an absent or null field flows through as `none` (`undefined`), with no
engine-level error. -/
def resolveToAddr (cfg : EthConfig) (item : Record) : Option String :=
  match cfg.toAddressSource with
  | .parameter => some cfg.toAddress
  | .input =>
    match lookupR item cfg.toAddressField with
    | some (.s v) => some v
    | _ => none

/-- The native-transfer amount string (`Ethereum.execute`, lines 326-333):
`v != null ? String(v) : '0'` — an absent or null field silently becomes
the string `"0"`. -/
def resolveValueStr (cfg : EthConfig) (item : Record) : String :=
  match cfg.valueSource with
  | .parameter => cfg.valueWei
  | .input =>
    match lookupR item cfg.valueField with
    | some (.s v) => v
    | _ => "0"

/-- The ERC-20 amount string (`Ethereum.execute`, lines 371-378); absent or
null fields default to `"0"` exactly as in `resolveValueStr`. -/
def resolveErc20Amount (cfg : EthConfig) (item : Record) : String :=
  match cfg.erc20AmountSource with
  | .parameter => cfg.erc20Amount
  | .input =>
    match lookupR item cfg.erc20AmountField with
    | some (.s v) => v
    | _ => "0"

/-- The `getBalance` query address (`Ethereum.execute`, lines 403-407). -/
def resolveAddress (cfg : EthConfig) (item : Record) : Option String :=
  match cfg.addressSource with
  | .parameter => some cfg.address
  | .input =>
    match lookupR item cfg.addressField with
    | some (.s v) => some v
    | _ => none

/-- The `getERC20Balance` query address (`Ethereum.execute`, lines 424-428). -/
def resolveAddressErc20 (cfg : EthConfig) (item : Record) : Option String :=
  match cfg.addressSourceErc20 with
  | .parameter => some cfg.addressErc20
  | .input =>
    match lookupR item cfg.addressFieldErc20 with
    | some (.s v) => some v
    | _ => none

/-- The `transfer` branch of the item loop of `Ethereum.execute`
(lines 311-354), for item `i`. -/
def transferItem (env : EthEnv) (cfg : EthConfig) (chainId : Int) (i : Nat)
    (item : Record) : Except NodeErr TransferOutput :=
  match lookupR item cfg.privateKeyField with
  | none => .error (.missingField (i + 1) cfg.privateKeyField)
  | some .null => .error (.missingField (i + 1) cfg.privateKeyField)
  | some (.s pk) =>
    match valueWeiOf (resolveValueStr cfg item) with
    | none => .error (.amountError (i + 1))
    | some valueWei =>
      match env.walletOf (trimS pk) with
      | none => .error (.invalidKey (i + 1))
      | some _addr =>
        let tx := env.sendNative (trimS pk) (resolveToAddr cfg item) valueWei
        .ok { chainId := chainId, hash := tx.hash, fromAddr := tx.fromAddr,
              toAddr := resolveToAddr cfg item, value := toString valueWei,
              blockNumber := tx.blockNumber.map toString, status := tx.status,
              pairedItem := i }

/-- The `transferERC20` branch of the item loop of `Ethereum.execute`
(lines 355-401), for item `i`. -/
def transferErc20Item (env : EthEnv) (cfg : EthConfig) (chainId : Int) (i : Nat)
    (item : Record) : Except NodeErr Erc20TransferOutput :=
  match lookupR item cfg.privateKeyField with
  | none => .error (.missingField (i + 1) cfg.privateKeyField)
  | some .null => .error (.missingField (i + 1) cfg.privateKeyField)
  | some (.s pk) =>
    match amountWeiOf (resolveErc20Amount cfg item) (effDecimals cfg.tokenDecimals) with
    | none => .error (.amountError (i + 1))
    | some amountWei =>
      match env.walletOf (trimS pk) with
      | none => .error (.invalidKey (i + 1))
      | some waddr =>
        let tx := env.sendErc20 (trimS pk) cfg.tokenAddress (resolveToAddr cfg item) amountWei
        .ok { chainId := chainId, hash := tx.hash, fromAddr := waddr,
              toAddr := resolveToAddr cfg item, tokenAddress := cfg.tokenAddress,
              amount := toString amountWei, amountHuman := resolveErc20Amount cfg item,
              blockNumber := tx.blockNumber.map toString, status := tx.status,
              pairedItem := i }

/-- The `getBalance` branch of the item loop of `Ethereum.execute`
(lines 402-421), for item `i` (`if (!address)` covers both an unresolved
and an empty address). -/
def getBalanceItem (env : EthEnv) (cfg : EthConfig) (chainId : Int) (i : Nat)
    (item : Record) : Except NodeErr BalanceOutput :=
  match resolveAddress cfg item with
  | none => .error (.addressRequired (i + 1))
  | some a =>
    if a = "" then .error (.addressRequired (i + 1))
    else
      .ok { chainId := chainId, address := a,
            balanceWei := toString (env.balanceOf a),
            balanceEth := ddiv (roundToDouble ⟨env.balanceOf a, 1⟩) lit1e18,
            pairedItem := i }

/-- The `getERC20Balance` branch of the item loop of `Ethereum.execute`
(lines 422-451), for item `i`. -/
def getErc20BalanceItem (env : EthEnv) (cfg : EthConfig) (chainId : Int) (i : Nat)
    (item : Record) : Except NodeErr Erc20BalanceOutput :=
  match resolveAddressErc20 cfg item with
  | none => .error (.addressRequired (i + 1))
  | some a =>
    if a = "" then .error (.addressRequired (i + 1))
    else
      .ok { chainId := chainId, address := a, tokenAddress := cfg.tokenAddress,
            balanceWei := toString (env.erc20BalanceOf cfg.tokenAddress a),
            balanceHuman := ddiv (roundToDouble ⟨env.erc20BalanceOf cfg.tokenAddress a, 1⟩)
              (pow10Double (env.erc20Decimals cfg.tokenAddress)),
            decimals := env.erc20Decimals cfg.tokenAddress, pairedItem := i }

/-- One pass of the item loop of `Ethereum.execute` (lines 308-453): the
`if`/`else if` chain over the operation.  `getGas` never reaches the loop
(handled earlier) and would push nothing (`.ok none`). -/
def ethItem (env : EthEnv) (cfg : EthConfig) (chainId : Int) (i : Nat)
    (item : Record) : Except NodeErr (Option EthOutput) :=
  match cfg.operation with
  | .transfer => (transferItem env cfg chainId i item).map fun o => some (.xfer o)
  | .transferERC20 => (transferErc20Item env cfg chainId i item).map fun o => some (.xferErc20 o)
  | .getBalance => (getBalanceItem env cfg chainId i item).map fun o => some (.bal o)
  | .getERC20Balance => (getErc20BalanceItem env cfg chainId i item).map fun o => some (.balErc20 o)
  | .getGas => .ok none

/-- The item loop of `Ethereum.execute`: sequential processing starting at
item index `i`; a thrown error discards every collected output record. -/
def ethItems (env : EthEnv) (cfg : EthConfig) (chainId : Int) :
    Nat → List Record → Except NodeErr (List EthOutput)
  | _, [] => .ok []
  | i, item :: rest =>
    match ethItem env cfg chainId i item with
    | .error e => .error e
    | .ok none => ethItems env cfg chainId (i + 1) rest
    | .ok (some o) =>
      match ethItems env cfg chainId (i + 1) rest with
      | .error e => .error e
      | .ok os => .ok (o :: os)

/-- The single `getGas` output record (`Ethereum.execute`, lines 283-299). -/
def gasRecord (env : EthEnv) (chainId : Int) : GasOutput :=
  { chainId := chainId
    gasPrice := env.feeData.gasPrice.map toString
    maxFeePerGas := env.feeData.maxFeePerGas.map toString
    maxPriorityFeePerGas := env.feeData.maxPriorityFeePerGas.map toString
    blockNumber := env.latestBlock.map fun b => toString b.number
    blockTimestamp := env.latestBlock.map Block.timestamp
    pairedItem := 0 }

/-- `Ethereum.execute` (lines 258-456).  `connect` models
`new JsonRpcProvider(rpcUrl)` followed by `provider.getNetwork()`: the
reachability probe that is fatal to the batch on failure.  Note that the
reported `Network` is bound but never compared against the configured chain
id. -/
def ethExecute (connect : String → Except String Network) (env : EthEnv)
    (cfg : EthConfig) (items : List Record) : Except NodeErr (List EthOutput) :=
  let rpcUrl := trimS cfg.rpcUrl
  if rpcUrl = "" then .error .rpcUrlRequired
  else
    match connect rpcUrl with
    | .error msg => .error (.rpcFailed msg)
    | .ok _net =>
      let chainId := resolveChainId cfg.chainIdParam
      if cfg.operation = .getGas then .ok [.gas (gasRecord env chainId)]
      else
        let workItems : List Record := if items.isEmpty then [[]] else items
        ethItems env cfg chainId 0 workItems

/-- An ethers wallet as the sign node uses it: an address and the
`signMessage` function (EIP-191 signing is left abstract). -/
structure SignWallet where
  address : String
  signFn : String → String

/-- Collaborators of the `EthereumSign` node.  `walletOf` is `none` when
`new Wallet(key)` throws.  Binding the wallet to a provider does not change
`signMessage`, so the provider is only used for the chain-id probe. -/
structure SignEnv where
  connect : String → Except String Network
  walletOf : String → Option SignWallet

/-- The configuration surface of the `EthereumSign` node.  Its only
operation option is `signMessage`, so the operation parameter is not
modelled.  The `signedAt` timestamps are wall-clock readings and are left
out of the modelled output record. -/
structure SignConfig where
  privateKeyField : String
  rpcUrl : String
  chainIdParam : Option Int
  messageSource : Source
  message : String
  messageField : String

/-- Output record of `signMessage` (without the wall-clock fields). -/
structure SignOutput where
  message : String
  signature : String
  address : String
  chainId? : Option Int
  pairedItem : Nat
  deriving DecidableEq, Repr

/-- Assemble one sign output record (`EthereumSign.execute`, lines 188-199):
`chainId` is spread into the json only when positive. -/
def mkSignOutput (w : SignWallet) (chainId : Int) (i : Nat) (message : String) : SignOutput :=
  { message := message, signature := w.signFn message, address := w.address,
    chainId? := if 0 < chainId then some chainId else none, pairedItem := i }

/-- One pass of the item loop of `EthereumSign.execute` (lines 142-200). -/
def signItem (env : SignEnv) (cfg : SignConfig) (chainId : Int) (i : Nat)
    (item : Record) : Except NodeErr SignOutput :=
  match lookupR item cfg.privateKeyField with
  | none => .error (.missingField (i + 1) cfg.privateKeyField)
  | some .null => .error (.missingField (i + 1) cfg.privateKeyField)
  | some (.s pk) =>
    if trimS pk = "" then .error (.emptyKey (i + 1))
    else
      match env.walletOf (trimS pk) with
      | none => .error (.invalidKey (i + 1))
      | some w =>
        match cfg.messageSource with
        | .parameter => .ok (mkSignOutput w chainId i cfg.message)
        | .input =>
          match lookupR item cfg.messageField with
          | none => .error (.missingField (i + 1) cfg.messageField)
          | some .null => .error (.missingField (i + 1) cfg.messageField)
          | some (.s v) => .ok (mkSignOutput w chainId i v)

/-- The item loop of `EthereumSign.execute`: sequential processing starting
at item index `i`; a thrown error discards every collected output record. -/
def signItems (env : SignEnv) (cfg : SignConfig) (chainId : Int) :
    Nat → List Record → Except NodeErr (List SignOutput)
  | _, [] => .ok []
  | i, item :: rest =>
    match signItem env cfg chainId i item with
    | .error e => .error e
    | .ok o =>
      match signItems env cfg chainId (i + 1) rest with
      | .error e => .error e
      | .ok os => .ok (o :: os)

/-- `EthereumSign.execute` (lines 112-203): optional connection probe with
chain-id validation (lines 121-140), then the item loop. -/
def signExecute (env : SignEnv) (cfg : SignConfig) (items : List Record) :
    Except NodeErr (List SignOutput) :=
  let chainId := resolveChainId cfg.chainIdParam
  let rpcUrl := trimS cfg.rpcUrl
  if rpcUrl = "" then signItems env cfg chainId 0 items
  else
    match env.connect rpcUrl with
    | .error msg => .error (.rpcFailed msg)
    | .ok net =>
      if chainId ≠ net.chainId then .error (.chainMismatch chainId net.chainId)
      else signItems env cfg chainId 0 items

/-- One random wallet as produced by `Wallet.createRandom()`:
`mnemonic?` models `wallet.mnemonic?.phrase` (the chained optional). -/
structure WalletData where
  address : String
  privateKey : String
  mnemonic? : Option String

/-- Output record of `createWallet`. -/
structure CWOutput where
  address : String
  privateKey : String
  mnemonic : String
  pairedItem : Nat
  deriving DecidableEq, Repr

/-- `EthereumCreateWallet.execute`: `gen` models the stream of random
wallets (`Wallet.createRandom()` at loop pass `i`).  The method never reads
the input batch (it does not call `getInputData`). -/
def createWalletExecute (gen : Nat → WalletData) (operation : String) (count : Nat) :
    List CWOutput :=
  if operation ≠ "createWallet" then []
  else
    (List.range count).map fun i =>
      { address := (gen i).address, privateKey := (gen i).privateKey,
        mnemonic := ((gen i).mnemonic?).getD "", pairedItem := i }

/-- Lower bound on the wallet count from the node's declared
`typeOptions: min 1` of the `count` property. -/
def countMin : Nat := 1

/-- Upper bound on the wallet count from the node's declared
`typeOptions: max 100` of the `count` property. -/
def countMax : Nat := 100

/-- Number of output records delivered by a run: an aborted batch delivers
none. -/
def outCount {α : Type} : Except NodeErr (List α) → Nat
  | .ok l => l.length
  | .error _ => 0

theorem transferItem_paired {env : EthEnv} {cfg : EthConfig} {c : Int} {i : Nat}
    {item : Record} {o : TransferOutput}
    (h : transferItem env cfg c i item = .ok o) : o.pairedItem = i := by
  unfold transferItem at h
  repeat' split at h
  all_goals try (injection h with h)
  all_goals first
    | (subst h; rfl)
    | simp_all

theorem transferErc20Item_paired {env : EthEnv} {cfg : EthConfig} {c : Int} {i : Nat}
    {item : Record} {o : Erc20TransferOutput}
    (h : transferErc20Item env cfg c i item = .ok o) : o.pairedItem = i := by
  unfold transferErc20Item at h
  repeat' split at h
  all_goals try (injection h with h)
  all_goals first
    | (subst h; rfl)
    | simp_all

theorem getBalanceItem_paired {env : EthEnv} {cfg : EthConfig} {c : Int} {i : Nat}
    {item : Record} {o : BalanceOutput}
    (h : getBalanceItem env cfg c i item = .ok o) : o.pairedItem = i := by
  unfold getBalanceItem at h
  repeat' split at h
  all_goals try (injection h with h)
  all_goals first
    | (subst h; rfl)
    | simp_all

theorem getErc20BalanceItem_paired {env : EthEnv} {cfg : EthConfig} {c : Int} {i : Nat}
    {item : Record} {o : Erc20BalanceOutput}
    (h : getErc20BalanceItem env cfg c i item = .ok o) : o.pairedItem = i := by
  unfold getErc20BalanceItem at h
  repeat' split at h
  all_goals try (injection h with h)
  all_goals first
    | (subst h; rfl)
    | simp_all

theorem ethItem_paired {env : EthEnv} {cfg : EthConfig} {c : Int} {i : Nat}
    {item : Record} {o : EthOutput}
    (h : ethItem env cfg c i item = .ok (some o)) : o.pairedItem = i := by
  unfold ethItem at h
  cases hop : cfg.operation <;> rw [hop] at h
  case transfer =>
    cases htr : transferItem env cfg c i item <;> rw [htr] at h <;>
      simp only [Except.map] at h
    · exact absurd h (by simp)
    · injection h with h2
      injection h2 with h3
      subst h3
      simpa [EthOutput.pairedItem] using transferItem_paired htr
  case transferERC20 =>
    cases htr : transferErc20Item env cfg c i item <;> rw [htr] at h <;>
      simp only [Except.map] at h
    · exact absurd h (by simp)
    · injection h with h2
      injection h2 with h3
      subst h3
      simpa [EthOutput.pairedItem] using transferErc20Item_paired htr
  case getBalance =>
    cases htr : getBalanceItem env cfg c i item <;> rw [htr] at h <;>
      simp only [Except.map] at h
    · exact absurd h (by simp)
    · injection h with h2
      injection h2 with h3
      subst h3
      simpa [EthOutput.pairedItem] using getBalanceItem_paired htr
  case getERC20Balance =>
    cases htr : getErc20BalanceItem env cfg c i item <;> rw [htr] at h <;>
      simp only [Except.map] at h
    · exact absurd h (by simp)
    · injection h with h2
      injection h2 with h3
      subst h3
      simpa [EthOutput.pairedItem] using getErc20BalanceItem_paired htr
  case getGas => exact absurd h (by simp)

theorem signItem_paired {env : SignEnv} {cfg : SignConfig} {c : Int} {i : Nat}
    {item : Record} {o : SignOutput}
    (h : signItem env cfg c i item = .ok o) : o.pairedItem = i := by
  unfold signItem at h
  repeat' split at h
  all_goals try (injection h with h)
  all_goals first
    | (subst h; rfl)
    | simp_all [mkSignOutput]

theorem ethItems_all_ok (env : EthEnv) (cfg : EthConfig) (c : Int) (l : List Record)
    (h : ∀ item ∈ l, ∀ k, ∃ o, ethItem env cfg c k item = .ok (some o)) :
    ∀ start, ∃ os, ethItems env cfg c start l = .ok os ∧ os.length = l.length ∧
      os.map EthOutput.pairedItem = List.range' start l.length := by
  induction l with
  | nil => exact fun start => ⟨[], rfl, rfl, rfl⟩
  | cons item rest ih =>
    intro start
    obtain ⟨o, ho⟩ := h item (by simp) start
    obtain ⟨os, hos, hlen, hmap⟩ := ih (fun it hit k => h it (by simp [hit]) k) (start + 1)
    refine ⟨o :: os, by simp [ethItems, ho, hos], by simp [hlen], ?_⟩
    have hpo : o.pairedItem = start := ethItem_paired ho
    simp [hpo, hmap, hlen, List.range'_succ]

theorem ethItems_error_of_bad (env : EthEnv) (cfg : EthConfig) (c : Int)
    (l : List Record) (bad : Record) (hm : bad ∈ l)
    (hbad : ∀ k, ∃ e, ethItem env cfg c k bad = .error e) :
    ∀ start, ∃ e2, ethItems env cfg c start l = .error e2 := by
  induction l with
  | nil => cases hm
  | cons item rest ih =>
    intro start
    rcases List.mem_cons.mp hm with rfl | hm2
    · obtain ⟨e, he⟩ := hbad start
      exact ⟨e, by simp [ethItems, he]⟩
    · cases hhead : ethItem env cfg c start item with
      | error e => exact ⟨e, by simp [ethItems, hhead]⟩
      | ok o? =>
        obtain ⟨e2, he2⟩ := ih hm2 (start + 1)
        cases o? with
        | none => exact ⟨e2, by simp [ethItems, hhead, he2]⟩
        | some o => exact ⟨e2, by simp [ethItems, hhead, he2]⟩

theorem signItems_all_ok (env : SignEnv) (cfg : SignConfig) (c : Int) (l : List Record)
    (h : ∀ item ∈ l, ∀ k, ∃ o, signItem env cfg c k item = .ok o) :
    ∀ start, ∃ os, signItems env cfg c start l = .ok os ∧ os.length = l.length ∧
      os.map SignOutput.pairedItem = List.range' start l.length := by
  induction l with
  | nil => exact fun start => ⟨[], rfl, rfl, rfl⟩
  | cons item rest ih =>
    intro start
    obtain ⟨o, ho⟩ := h item (by simp) start
    obtain ⟨os, hos, hlen, hmap⟩ := ih (fun it hit k => h it (by simp [hit]) k) (start + 1)
    refine ⟨o :: os, by simp [signItems, ho, hos], by simp [hlen], ?_⟩
    have hpo : o.pairedItem = start := signItem_paired ho
    simp [hpo, hmap, hlen, List.range'_succ]

theorem signItems_error_of_bad (env : SignEnv) (cfg : SignConfig) (c : Int)
    (l : List Record) (bad : Record) (hm : bad ∈ l)
    (hbad : ∀ k, ∃ e, signItem env cfg c k bad = .error e) :
    ∀ start, ∃ e2, signItems env cfg c start l = .error e2 := by
  induction l with
  | nil => cases hm
  | cons item rest ih =>
    intro start
    rcases List.mem_cons.mp hm with rfl | hm2
    · obtain ⟨e, he⟩ := hbad start
      exact ⟨e, by simp [signItems, he]⟩
    · cases hhead : signItem env cfg c start item with
      | error e => exact ⟨e, by simp [signItems, hhead]⟩
      | ok o =>
        obtain ⟨e2, he2⟩ := ih hm2 (start + 1)
        exact ⟨e2, by simp [signItems, hhead, he2]⟩

theorem ethExecute_run (connect : String → Except String Network) (env : EthEnv)
    (cfg : EthConfig) (items : List Record) (net : Network)
    (hurl : trimS cfg.rpcUrl ≠ "") (hconn : connect (trimS cfg.rpcUrl) = .ok net)
    (hop : cfg.operation ≠ .getGas) :
    ethExecute connect env cfg items =
      ethItems env cfg (resolveChainId cfg.chainIdParam) 0
        (if items.isEmpty then [[]] else items) := by
  unfold ethExecute
  simp [hurl, hconn, hop]

theorem signExecute_run (env : SignEnv) (cfg : SignConfig) (items : List Record)
    (hok : trimS cfg.rpcUrl = "" ∨
      ∃ net, env.connect (trimS cfg.rpcUrl) = .ok net ∧
        resolveChainId cfg.chainIdParam = net.chainId) :
    signExecute env cfg items =
      signItems env cfg (resolveChainId cfg.chainIdParam) 0 items := by
  unfold signExecute
  rcases hok with h | ⟨net, hc, hid⟩
  · simp [h]
  · by_cases hurl : trimS cfg.rpcUrl = ""
    · simp [hurl]
    · simp [hurl, hc, hid]

theorem roundHalfEvenAux_nonneg {q r : Int} {den : Nat} (hq : 0 ≤ q) :
    0 ≤ roundHalfEvenAux q r den := by
  unfold roundHalfEvenAux
  repeat' split
  all_goals omega

theorem roundHalfEven_nonneg {num : Int} {den : Nat} (h : 0 ≤ num) :
    0 ≤ roundHalfEven num den :=
  roundHalfEvenAux_nonneg (Int.fdiv_nonneg h (Int.natCast_nonneg den))

theorem roundAtExp_nonneg {a : Frac} (e : Int) (h : 0 ≤ a.num) :
    0 ≤ roundAtExp a e := by
  unfold roundAtExp
  split
  · exact roundHalfEven_nonneg h
  · exact roundHalfEven_nonneg (mul_nonneg h (by positivity))

theorem roundToDouble_num_nonneg {a : Frac} (h : 0 ≤ a.num) :
    0 ≤ (roundToDouble a).num := by
  unfold roundToDouble
  split
  · simp
  · split
    · unfold roundToDoublePos roundToDoublePosAux
      split
      · exact mul_nonneg (roundAtExp_nonneg _ h) (by positivity)
      · exact roundAtExp_nonneg _ h
    · omega

theorem dmul_num_nonneg {a b : Frac} (ha : 0 ≤ a.num) (hb : 0 ≤ b.num) :
    0 ≤ (dmul a b).num :=
  roundToDouble_num_nonneg (mul_nonneg ha hb)

theorem pow10Double_num_nonneg (d : Int) : 0 ≤ (pow10Double d).num := by
  refine roundToDouble_num_nonneg ?_
  unfold qpow10
  split <;> positivity

theorem Frac.floor_nonneg {a : Frac} (h : 0 ≤ a.num) : 0 ≤ a.floor :=
  Int.fdiv_nonneg h (Int.natCast_nonneg a.den)

/-- A connection probe that always succeeds, reporting chain id 1. -/
def okConn : String → Except String Network := fun _ => .ok { chainId := 1 }

/-- A deterministic collaborator environment for concrete runs. -/
def baseEnv : EthEnv :=
  { feeData := ⟨some 7, some 9, some 2⟩
    latestBlock := some ⟨100, 1700⟩
    balanceOf := fun _ => 5
    erc20BalanceOf := fun _ _ => 42
    erc20Decimals := fun _ => 6
    walletOf := fun k => if k = "" then none else some "0xSENDER"
    sendNative := fun _k _t _v => ⟨"0xhash", "0xSENDER", some 101, some 1⟩
    sendErc20 := fun _k _c _t _v => ⟨"0xhash2", "0xSENDER", some 102, some 1⟩ }

/-- A baseline configuration: `getBalance` with every source selector on
the static parameter. -/
def baseCfg : EthConfig :=
  { operation := .getBalance, rpcUrl := "http://rpc", chainIdParam := some 1
    privateKeyField := "privateKey", toAddress := "0xTO", toAddressSource := .parameter
    toAddressField := "to_addr", valueWei := "0.5", valueSource := .parameter
    valueField := "amount", tokenAddress := "0xTOK", erc20Amount := "1.5"
    erc20AmountSource := .parameter, erc20AmountField := "amount", tokenDecimals := 6
    address := "0xQ", addressSource := .parameter, addressField := "address"
    addressErc20 := "0xQ2", addressSourceErc20 := .parameter
    addressFieldErc20 := "address" }

/-- An input record holding only a private key. -/
def pkItem : Record := [("privateKey", .s "0xkey")]

/-- A deterministic signing wallet. -/
def baseWallet : SignWallet := ⟨"0xADDR", fun m => "sig:" ++ m⟩

/-- A sign-node environment over `okConn`-like connectivity. -/
def baseSignEnv : SignEnv :=
  { connect := fun _ => .ok { chainId := 1 }
    walletOf := fun k => if k = "" then none else some baseWallet }

/-- A baseline sign-node configuration: no connection, static message. -/
def baseSignCfg : SignConfig :=
  { privateKeyField := "privateKey", rpcUrl := "", chainIdParam := some 1
    messageSource := .parameter, message := "hello", messageField := "message" }

/-- A sign-node configuration declaring chain id 137 against a connection
that reports chain id 1. -/
def mismatchSignCfg : SignConfig :=
  { baseSignCfg with rpcUrl := "http://rpc", chainIdParam := some 137 }

/-- C1 counterexample: the `Ethereum` node never compares the declared
chain id with the connection's reported chain id.  With chain id 137
declared and the connection reporting chain id 1, a one-item `getBalance`
batch is not aborted: it delivers one output record instead of zero. -/
theorem C1_counterexample :
    resolveChainId (some 137) = 137 ∧
    okConn (trimS baseCfg.rpcUrl) = .ok { chainId := 1 } ∧
    outCount (ethExecute okConn baseEnv { baseCfg with chainIdParam := some 137 } [pkItem]) = 1 := by
  decide

/-- C1 (amended): only the `EthereumSign` node validates the declared chain
id: with a connection endpoint supplied and a differing reported chain id,
the sign batch aborts before any item with a `chainMismatch` error and zero
output records.  The `Ethereum` node (GetBalance, GetERC20Balance, GetGas,
Transfer, TransferERC20) ignores the reported chain id entirely: its result
is unchanged whatever chain id the connection reports. -/
theorem C1_amended (connect : String → Except String Network) (env : EthEnv)
    (cfg : EthConfig) (items : List Record) (c : Int)
    (senv : SignEnv) (scfg : SignConfig) (sitems : List Record) (net : Network)
    (h1 : trimS scfg.rpcUrl ≠ "") (h2 : senv.connect (trimS scfg.rpcUrl) = .ok net)
    (h3 : resolveChainId scfg.chainIdParam ≠ net.chainId) :
    ethExecute (fun u => (connect u).map fun _ => { chainId := c }) env cfg items =
      ethExecute connect env cfg items ∧
    signExecute senv scfg sitems =
      .error (.chainMismatch (resolveChainId scfg.chainIdParam) net.chainId) ∧
    outCount (signExecute senv scfg sitems) = 0 := by
  have hsign : signExecute senv scfg sitems =
      .error (.chainMismatch (resolveChainId scfg.chainIdParam) net.chainId) := by
    unfold signExecute
    simp [h1, h2, h3]
  refine ⟨?_, hsign, by rw [hsign]; rfl⟩
  unfold ethExecute
  by_cases hurl : trimS cfg.rpcUrl = ""
  · simp [hurl]
  · cases hc : connect (trimS cfg.rpcUrl) <;> simp [hurl, hc, Except.map]

theorem C1_amended_witness :
    ethExecute (fun u => (okConn u).map fun _ => { chainId := 42 }) baseEnv baseCfg [pkItem] =
      ethExecute okConn baseEnv baseCfg [pkItem] ∧
    signExecute baseSignEnv mismatchSignCfg [pkItem] =
      .error (.chainMismatch (resolveChainId mismatchSignCfg.chainIdParam)
        (Network.chainId { chainId := 1 })) ∧
    outCount (signExecute baseSignEnv mismatchSignCfg [pkItem]) = 0 :=
  C1_amended okConn baseEnv baseCfg [pkItem] 42 baseSignEnv mismatchSignCfg [pkItem]
    { chainId := 1 } (by decide) (by decide) (by decide)

/-- C2 counterexample: the conversion is done in binary64 floating point,
not exact truncation.  `parseFloat("1.9999999999999999999")` rounds up to
exactly 2, so the code yields `2 * 10 ^ 18` while exact
multiply-then-truncate yields `1999999999999999999` — the code rounds a
sub-base-unit fraction up. -/
theorem C2_counterexample :
    amountWeiOf "1.9999999999999999999" 18 = some 2000000000000000000 ∧
    valueWeiOf "1.9999999999999999999" = some 2000000000000000000 ∧
    toBaseUnitsSpec "1.9999999999999999999" 18 = some 1999999999999999999 ∧
    ¬(2000000000000000000 : Int) ≤ 1999999999999999999 := by
  decide

/-- C2 (amended): conversion parses the decimal string to a binary64 value,
multiplies by the binary64 value of `10 ^ d` and floors the binary64
product.  This agrees with exact truncation on inputs the double format
represents well — in particular `toBaseUnits("1.23456789", 2) = 123` — and
for every non-negative parsed input the resulting base-unit amount is a
non-negative integer; but an input needing more than 53 bits of precision
can round up past the truncated value (see the counterexample). -/
theorem C2_amended (s : String) (q : Frac) (d : Int)
    (hp : parseDecimal? s = some q) (hq : 0 ≤ q.num) :
    amountWeiOf "1.23456789" 2 = some 123 ∧
    ∃ n : Int, amountWeiOf s d = some n ∧ 0 ≤ n := by
  refine ⟨by decide, ?_⟩
  have h1 : parseFloatD s = some (roundToDouble q) := by
    rw [parseFloatD, hp]
    rfl
  refine ⟨Frac.floor (dmul (roundToDouble q) (pow10Double d)), ?_, ?_⟩
  · rw [amountWeiOf, h1]
    rfl
  · exact Frac.floor_nonneg
      (dmul_num_nonneg (roundToDouble_num_nonneg hq) (pow10Double_num_nonneg d))

theorem C2_amended_witness :
    parseDecimal? "2.5" = some ⟨25, 10⟩ ∧ (0 : Int) ≤ Frac.num ⟨25, 10⟩ ∧
    (amountWeiOf "1.23456789" 2 = some 123 ∧
      ∃ n : Int, amountWeiOf "2.5" 18 = some n ∧ 0 ≤ n) :=
  ⟨by decide, by decide, C2_amended "2.5" ⟨25, 10⟩ 18 (by decide) (by decide)⟩

/-- The transfer configuration used to refute C3: the amount comes from the
item field `amount`. -/
def cfgC3 : EthConfig := { baseCfg with operation := .transfer, valueSource := .input }

/-- C3 counterexample: a `FromRecord` amount whose field is absent does not
raise a `MissingField` error: the item record lacks `amount`, yet the batch
succeeds and the transfer is submitted with value `"0"`. -/
theorem C3_counterexample :
    lookupR pkItem "amount" = none ∧
    cfgC3.valueSource = .input ∧ cfgC3.valueField = "amount" ∧
    ethExecute okConn baseEnv cfgC3 [pkItem] =
      .ok [.xfer { chainId := 1, hash := "0xhash", fromAddr := "0xSENDER",
                   toAddr := some "0xTO", value := "0", blockNumber := some "101",
                   status := some 1, pairedItem := 0 }] := by
  decide

/-- C3 (amended): only the private-key lookup (Transfer, TransferERC20,
SignMessage) and the sign node's message lookup fail with a `MissingField`
error naming the item number and field when the field is absent or null; a
`FromRecord` amount that is absent silently defaults to the string `"0"`,
and a `FromRecord` recipient address that is absent flows through as
`undefined` with no engine-level error. -/
theorem C3_amended (env : EthEnv) (c : Int) (i : Nat)
    (cfg1 : EthConfig) (item1 : Record)
    (hpk1 : lookupR item1 cfg1.privateKeyField = none ∨
      lookupR item1 cfg1.privateKeyField = some .null)
    (senv : SignEnv) (scfg : SignConfig) (sitem : Record) (spk : String) (w : SignWallet)
    (hspk : lookupR sitem scfg.privateKeyField = some (.s spk))
    (hsne : trimS spk ≠ "") (hw : senv.walletOf (trimS spk) = some w)
    (hms : scfg.messageSource = .input)
    (hmf : lookupR sitem scfg.messageField = none ∨
      lookupR sitem scfg.messageField = some .null)
    (cfg2 : EthConfig) (item2 : Record) (pk2 : String) (a2 : String)
    (hpk2 : lookupR item2 cfg2.privateKeyField = some (.s pk2))
    (hw2 : env.walletOf (trimS pk2) = some a2)
    (hv2 : cfg2.valueSource = .input) (hlv2 : lookupR item2 cfg2.valueField = none)
    (ht2 : cfg2.toAddressSource = .input) (hlt2 : lookupR item2 cfg2.toAddressField = none) :
    transferItem env cfg1 c i item1 = .error (.missingField (i + 1) cfg1.privateKeyField) ∧
    transferErc20Item env cfg1 c i item1 = .error (.missingField (i + 1) cfg1.privateKeyField) ∧
    signItem senv scfg c i sitem = .error (.missingField (i + 1) scfg.messageField) ∧
    ∃ o, transferItem env cfg2 c i item2 = .ok o ∧ o.value = "0" ∧ o.toAddr = none := by
  refine ⟨?_, ?_, ?_, ?_⟩
  · rcases hpk1 with h | h <;> simp [transferItem, h]
  · rcases hpk1 with h | h <;> simp [transferErc20Item, h]
  · rcases hmf with h | h <;> simp [signItem, hspk, hsne, hw, hms, h]
  · have hval : resolveValueStr cfg2 item2 = "0" := by simp [resolveValueStr, hv2, hlv2]
    have hto : resolveToAddr cfg2 item2 = none := by simp [resolveToAddr, ht2, hlt2]
    have hw0 : valueWeiOf "0" = some 0 := by decide
    have htos : toString (0 : Int) = "0" := by decide
    have hrun : transferItem env cfg2 c i item2 =
        .ok { chainId := c, hash := (env.sendNative (trimS pk2) none 0).hash,
              fromAddr := (env.sendNative (trimS pk2) none 0).fromAddr,
              toAddr := none, value := "0",
              blockNumber := ((env.sendNative (trimS pk2) none 0).blockNumber).map toString,
              status := (env.sendNative (trimS pk2) none 0).status, pairedItem := i } := by
      simp [transferItem, hpk2, hval, hw0, hw2, hto, htos]
    exact ⟨_, hrun, rfl, rfl⟩

/-- The sign configuration used in the C3 witness: message from the input
record. -/
def inputMsgSignCfg : SignConfig := { baseSignCfg with messageSource := .input }

/-- The transfer configuration used in the C3 witness: amount and recipient
both from absent input fields. -/
def cfgC3w : EthConfig :=
  { baseCfg with operation := .transfer, valueSource := .input, toAddressSource := .input }

theorem C3_amended_witness :
    transferItem baseEnv { baseCfg with operation := .transfer } 1 0 [] =
      .error (.missingField 1 "privateKey") ∧
    transferErc20Item baseEnv { baseCfg with operation := .transfer } 1 0 [] =
      .error (.missingField 1 "privateKey") ∧
    signItem baseSignEnv inputMsgSignCfg 1 0 pkItem = .error (.missingField 1 "message") ∧
    ∃ o, transferItem baseEnv cfgC3w 1 0 pkItem = .ok o ∧ o.value = "0" ∧ o.toAddr = none :=
  C3_amended baseEnv 1 0 { baseCfg with operation := .transfer } [] (Or.inl (by decide))
    baseSignEnv inputMsgSignCfg pkItem "0xkey" baseWallet (by rfl) (by decide) (by rfl)
    (by decide) (Or.inl (by decide))
    cfgC3w pkItem "0xkey" "0xSENDER" (by decide) (by decide) (by decide) (by decide)
    (by decide) (by decide)

/-- C4: the native-transfer amount dispatches solely on the presence of a
fractional separator: with a `'.'` the string is converted exactly like a
human-unit amount at 18 decimals (binary64 multiply by `1e18`, floored);
without one it is parsed as an integer wei amount and used unchanged.  The
two readings differ: `"1.0"` yields `10 ^ 18` wei while `"1"` yields 1 wei. -/
theorem C4_separator_dispatch (s : String) :
    (s.data.contains '.' = true → valueWeiOf s = amountWeiOf s 18) ∧
    (s.data.contains '.' = false → valueWeiOf s = parseBigInt? s) ∧
    valueWeiOf "1.0" = some 1000000000000000000 ∧
    valueWeiOf "1" = some 1 := by
  have hpw : pow10Double 18 = lit1e18 := by decide
  refine ⟨fun h => ?_, fun h => ?_, by decide, by decide⟩
  · unfold valueWeiOf amountWeiOf
    rw [if_pos h, hpw]
  · unfold valueWeiOf
    rw [if_neg (fun hc => absurd (by simpa using hc) (by simpa using h))]

theorem C4_witness :
    ("1.5".data.contains '.' = true ∧ valueWeiOf "1.5" = amountWeiOf "1.5" 18) ∧
    ("7".data.contains '.' = false ∧ valueWeiOf "7" = parseBigInt? "7") :=
  ⟨⟨by decide, (C4_separator_dispatch "1.5").1 (by decide)⟩,
   ⟨by decide, (C4_separator_dispatch "7").2.1 (by decide)⟩⟩

/-- C5: an item-level failure (one item of the batch whose processing
raises an error, for any item of the batch) aborts the entire run of both
nodes: the whole `execute` call returns the error, so no output record is
delivered for any item — including the items before the failing one. -/
theorem C5_item_error_aborts (connect : String → Except String Network)
    (env : EthEnv) (cfg : EthConfig) (items : List Record) (net : Network) (bad : Record)
    (hurl : trimS cfg.rpcUrl ≠ "") (hconn : connect (trimS cfg.rpcUrl) = .ok net)
    (hop : cfg.operation ≠ .getGas) (hm : bad ∈ items)
    (hbad : ∀ k, ∃ e, ethItem env cfg (resolveChainId cfg.chainIdParam) k bad = .error e)
    (senv : SignEnv) (scfg : SignConfig) (sitems : List Record) (sbad : Record)
    (hsurl : trimS scfg.rpcUrl = "") (hsm : sbad ∈ sitems)
    (hsbad : ∀ k, ∃ e, signItem senv scfg (resolveChainId scfg.chainIdParam) k sbad = .error e) :
    (∃ e, ethExecute connect env cfg items = .error e) ∧
    outCount (ethExecute connect env cfg items) = 0 ∧
    (∃ e, signExecute senv scfg sitems = .error e) ∧
    outCount (signExecute senv scfg sitems) = 0 := by
  have hrun := ethExecute_run connect env cfg items net hurl hconn hop
  have hitems : (if items.isEmpty then ([[]] : List Record) else items) = items := by
    cases items with
    | nil => cases hm
    | cons a l => rfl
  rw [hitems] at hrun
  obtain ⟨e, he⟩ := ethItems_error_of_bad env cfg (resolveChainId cfg.chainIdParam)
    items bad hm hbad 0
  have hsrun := signExecute_run senv scfg sitems (Or.inl hsurl)
  obtain ⟨e2, he2⟩ := signItems_error_of_bad senv scfg (resolveChainId scfg.chainIdParam)
    sitems sbad hsm hsbad 0
  exact ⟨⟨e, by rw [hrun, he]⟩, by rw [hrun, he]; rfl,
         ⟨e2, by rw [hsrun, he2]⟩, by rw [hsrun, he2]; rfl⟩

theorem C5_witness :
    (∃ e, ethExecute okConn baseEnv { baseCfg with operation := .transfer }
      [pkItem, []] = .error e) ∧
    outCount (ethExecute okConn baseEnv { baseCfg with operation := .transfer }
      [pkItem, []]) = 0 ∧
    (∃ e, signExecute baseSignEnv baseSignCfg [pkItem, []] = .error e) ∧
    outCount (signExecute baseSignEnv baseSignCfg [pkItem, []]) = 0 :=
  C5_item_error_aborts okConn baseEnv { baseCfg with operation := .transfer }
    [pkItem, []] { chainId := 1 } [] (by decide) (by decide) (by decide) (by decide)
    (fun k => ⟨.missingField (k + 1) "privateKey", rfl⟩)
    baseSignEnv baseSignCfg [pkItem, []] [] (by decide) (by decide)
    (fun k => ⟨.missingField (k + 1) "privateKey", rfl⟩)

/-- C6 counterexample: for K = 0 the per-item operations do not produce
K = 0 outputs — the empty batch is replaced by a synthetic record, so a
statically configured `getBalance` over zero input records yields one
output record. -/
theorem C6_counterexample :
    ([] : List Record).length = 0 ∧
    outCount (ethExecute okConn baseEnv baseCfg []) = 1 := by
  decide

/-- C6 (amended): for every batch of K ≥ 1 input records on which every
item resolves successfully, Transfer, TransferERC20, GetBalance and
GetERC20Balance (the `Ethereum` node) and SignMessage (the sign node)
produce exactly K output records, and the output at position i is tagged
with originating item index i, for i = 0..K-1 in order.  (For K = 0 the
`Ethereum` node instead produces one output from a synthetic record — see
the counterexample.) -/
theorem C6_amended (connect : String → Except String Network) (env : EthEnv)
    (cfg : EthConfig) (items : List Record) (net : Network)
    (hurl : trimS cfg.rpcUrl ≠ "") (hconn : connect (trimS cfg.rpcUrl) = .ok net)
    (hop : cfg.operation ≠ .getGas) (hne : items ≠ [])
    (hok : ∀ item ∈ items, ∀ k,
      ∃ o, ethItem env cfg (resolveChainId cfg.chainIdParam) k item = .ok (some o))
    (senv : SignEnv) (scfg : SignConfig) (sitems : List Record)
    (hsconn : trimS scfg.rpcUrl = "" ∨
      ∃ net2, senv.connect (trimS scfg.rpcUrl) = .ok net2 ∧
        resolveChainId scfg.chainIdParam = net2.chainId)
    (hsok : ∀ item ∈ sitems, ∀ k,
      ∃ o, signItem senv scfg (resolveChainId scfg.chainIdParam) k item = .ok o) :
    (∃ os, ethExecute connect env cfg items = .ok os ∧ os.length = items.length ∧
      os.map EthOutput.pairedItem = List.range' 0 items.length) ∧
    (∃ ss, signExecute senv scfg sitems = .ok ss ∧ ss.length = sitems.length ∧
      ss.map SignOutput.pairedItem = List.range' 0 sitems.length) := by
  have hrun := ethExecute_run connect env cfg items net hurl hconn hop
  have hitems : (if items.isEmpty then ([[]] : List Record) else items) = items := by
    cases items with
    | nil => exact absurd rfl hne
    | cons a l => rfl
  rw [hitems] at hrun
  obtain ⟨os, hos, hlen, hmap⟩ :=
    ethItems_all_ok env cfg (resolveChainId cfg.chainIdParam) items hok 0
  have hsrun := signExecute_run senv scfg sitems hsconn
  obtain ⟨ss, hss, hslen, hsmap⟩ :=
    signItems_all_ok senv scfg (resolveChainId scfg.chainIdParam) sitems hsok 0
  exact ⟨⟨os, hrun.trans hos, hlen, hmap⟩, ⟨ss, hsrun.trans hss, hslen, hsmap⟩⟩

theorem C6_amended_witness :
    (∃ os, ethExecute okConn baseEnv baseCfg [pkItem, []] = .ok os ∧
      os.length = [pkItem, ([] : Record)].length ∧
      os.map EthOutput.pairedItem = List.range' 0 [pkItem, ([] : Record)].length) ∧
    (∃ ss, signExecute baseSignEnv baseSignCfg [pkItem, pkItem] = .ok ss ∧
      ss.length = [pkItem, pkItem].length ∧
      ss.map SignOutput.pairedItem = List.range' 0 [pkItem, pkItem].length) :=
  C6_amended okConn baseEnv baseCfg [pkItem, []] { chainId := 1 }
    (by decide) (by decide) (by decide) (by decide)
    (fun _it _hit k =>
      ⟨.bal { chainId := 1, address := "0xQ", balanceWei := toString (5 : Int),
              balanceEth := ddiv (roundToDouble ⟨5, 1⟩) lit1e18, pairedItem := k }, rfl⟩)
    baseSignEnv baseSignCfg [pkItem, pkItem] (Or.inl (by decide))
    (fun it hit k => by
      rcases List.mem_cons.mp hit with rfl | hit2
      · exact ⟨mkSignOutput baseWallet 1 k "hello", rfl⟩
      · rcases List.mem_cons.mp hit2 with rfl | hit3
        · exact ⟨mkSignOutput baseWallet 1 k "hello", rfl⟩
        · cases hit3)

/-- C7: `getGas` returns before the item loop with exactly one output
record carrying the fee data (`gasPrice`, `maxFeePerGas`,
`maxPriorityFeePerGas`) and the latest-block metadata (`blockNumber`,
`blockTimestamp`), tagged with item index 0; the input batch — of any
size, including empty — is never consulted. -/
theorem C7_getGas (connect : String → Except String Network) (env : EthEnv)
    (cfg : EthConfig) (items items2 : List Record) (net : Network)
    (hop : cfg.operation = .getGas) (hurl : trimS cfg.rpcUrl ≠ "")
    (hconn : connect (trimS cfg.rpcUrl) = .ok net) :
    ethExecute connect env cfg items =
      .ok [.gas (gasRecord env (resolveChainId cfg.chainIdParam))] ∧
    outCount (ethExecute connect env cfg items) = 1 ∧
    ethExecute connect env cfg items = ethExecute connect env cfg items2 ∧
    (gasRecord env (resolveChainId cfg.chainIdParam)).gasPrice =
      env.feeData.gasPrice.map toString ∧
    (gasRecord env (resolveChainId cfg.chainIdParam)).maxFeePerGas =
      env.feeData.maxFeePerGas.map toString ∧
    (gasRecord env (resolveChainId cfg.chainIdParam)).maxPriorityFeePerGas =
      env.feeData.maxPriorityFeePerGas.map toString ∧
    (gasRecord env (resolveChainId cfg.chainIdParam)).blockNumber =
      env.latestBlock.map (fun b => toString b.number) ∧
    (gasRecord env (resolveChainId cfg.chainIdParam)).blockTimestamp =
      env.latestBlock.map Block.timestamp ∧
    (gasRecord env (resolveChainId cfg.chainIdParam)).pairedItem = 0 := by
  have hmain : ∀ l : List Record, ethExecute connect env cfg l =
      .ok [.gas (gasRecord env (resolveChainId cfg.chainIdParam))] := by
    intro l
    unfold ethExecute
    simp [hurl, hconn, hop]
  exact ⟨hmain items, by rw [hmain items]; rfl, (hmain items).trans (hmain items2).symm,
         rfl, rfl, rfl, rfl, rfl, rfl⟩

theorem C7_witness :
    ethExecute okConn baseEnv { baseCfg with operation := .getGas } [] =
      .ok [.gas (gasRecord baseEnv (resolveChainId baseCfg.chainIdParam))] ∧
    outCount (ethExecute okConn baseEnv { baseCfg with operation := .getGas } []) = 1 ∧
    ethExecute okConn baseEnv { baseCfg with operation := .getGas } [] =
      ethExecute okConn baseEnv { baseCfg with operation := .getGas } [pkItem, []] ∧
    (gasRecord baseEnv (resolveChainId baseCfg.chainIdParam)).gasPrice =
      baseEnv.feeData.gasPrice.map toString ∧
    (gasRecord baseEnv (resolveChainId baseCfg.chainIdParam)).maxFeePerGas =
      baseEnv.feeData.maxFeePerGas.map toString ∧
    (gasRecord baseEnv (resolveChainId baseCfg.chainIdParam)).maxPriorityFeePerGas =
      baseEnv.feeData.maxPriorityFeePerGas.map toString ∧
    (gasRecord baseEnv (resolveChainId baseCfg.chainIdParam)).blockNumber =
      baseEnv.latestBlock.map (fun b => toString b.number) ∧
    (gasRecord baseEnv (resolveChainId baseCfg.chainIdParam)).blockTimestamp =
      baseEnv.latestBlock.map Block.timestamp ∧
    (gasRecord baseEnv (resolveChainId baseCfg.chainIdParam)).pairedItem = 0 :=
  C7_getGas okConn baseEnv { baseCfg with operation := .getGas } [] [pkItem, []]
    { chainId := 1 } (by decide) (by decide) (by decide)

/-- C8: `createWallet` with a count N in the declared 1-100 range produces
exactly N output records, never consulting any input batch (the `execute`
method takes no input); each record carries the generated wallet's address
and private key, a non-empty mnemonic whenever the generator supplies a
mnemonic phrase (as `Wallet.createRandom` does), and is tagged with its own
output index 0..N-1 in order. -/
theorem C8_createWallet (gen : Nat → WalletData) (n : Nat)
    (_h1 : countMin ≤ n) (_h2 : n ≤ countMax)
    (hm : ∀ i, ∃ m, (gen i).mnemonic? = some m ∧ m ≠ "") :
    (createWalletExecute gen "createWallet" n).length = n ∧
    (createWalletExecute gen "createWallet" n).map CWOutput.pairedItem = List.range n ∧
    ∀ o ∈ createWalletExecute gen "createWallet" n,
      o.mnemonic ≠ "" ∧
      ∃ i, o.address = (gen i).address ∧ o.privateKey = (gen i).privateKey ∧
        o.pairedItem = i := by
  refine ⟨by simp [createWalletExecute], ?_, ?_⟩
  · rw [createWalletExecute, if_neg (by simp : ¬"createWallet" ≠ "createWallet"),
      List.map_map]
    show List.map (fun i => i) (List.range n) = List.range n
    simp
  · intro o ho
    simp only [createWalletExecute, if_neg (by simp : ¬"createWallet" ≠ "createWallet"),
      List.mem_map, List.mem_range] at ho
    obtain ⟨i, _hir, rfl⟩ := ho
    obtain ⟨m, hm1, hm2⟩ := hm i
    exact ⟨by simpa [hm1] using hm2, i, rfl, rfl, rfl⟩

/-- A deterministic stand-in for `Wallet.createRandom`. -/
def genW : Nat → WalletData := fun _ => ⟨"0xA", "0xK", some "alpha beta"⟩

theorem C8_witness :
    countMin ≤ 2 ∧ 2 ≤ countMax ∧
    ((createWalletExecute genW "createWallet" 2).length = 2 ∧
      (createWalletExecute genW "createWallet" 2).map CWOutput.pairedItem = List.range 2 ∧
      ∀ o ∈ createWalletExecute genW "createWallet" 2,
        o.mnemonic ≠ "" ∧
        ∃ i, o.address = (genW i).address ∧ o.privateKey = (genW i).privateKey ∧
          o.pairedItem = i) :=
  ⟨by decide, by decide,
    C8_createWallet genW 2 (by decide) (by decide) (fun _i => ⟨"alpha beta", rfl, by decide⟩)⟩

/-- C9: in the ERC-20 conversion the configured token decimals pass through
`decimals || 18`, so a declared 0-decimals token silently converts with 18
decimals: an amount of `"1"` becomes `10 ^ 18` base units where 0-decimals
scaling would give 1. -/
theorem C9_zero_decimals :
    effDecimals 0 = 18 ∧
    (∀ s, amountWeiOf s (effDecimals 0) = amountWeiOf s 18) ∧
    amountWeiOf "1" (effDecimals 0) = some 1000000000000000000 ∧
    amountWeiOf "1" 0 = some 1 :=
  ⟨by decide, fun _s => rfl, by decide, by decide⟩

theorem C9_witness :
    amountWeiOf "3.5" (effDecimals 0) = amountWeiOf "3.5" 18 :=
  C9_zero_decimals.2.1 "3.5"

/-- The transfer configuration used to refute C10: static recipient and
amount, zero input items. -/
def cfgC10 : EthConfig := { baseCfg with operation := .transfer }

/-- C10 counterexample: with zero input items, a Transfer whose recipient
and amount are statically configured does not produce one output record —
the private key can only come from the item record, the synthetic empty
record lacks it, and the batch aborts with a `missingField` error and zero
outputs. -/
theorem C10_counterexample :
    cfgC10.toAddressSource = .parameter ∧ cfgC10.valueSource = .parameter ∧
    ethExecute okConn baseEnv cfgC10 [] = .error (.missingField 1 "privateKey") ∧
    outCount (ethExecute okConn baseEnv cfgC10 []) = 0 := by
  decide

/-- C10 (amended): an empty input batch is replaced by a single synthetic
empty record in the `Ethereum` node's item loop.  GetBalance and
GetERC20Balance with statically configured (non-empty) addresses then
produce exactly one output record tagged with item index 0; Transfer and
TransferERC20 instead abort with a `missingField` error for the private
key, which can only be sourced from the (empty) record; SignMessage over
zero input items produces zero output records. -/
theorem C10_amended (connect : String → Except String Network) (env : EthEnv) (net : Network)
    (cfgB : EthConfig) (hurlB : trimS cfgB.rpcUrl ≠ "")
    (hconnB : connect (trimS cfgB.rpcUrl) = .ok net)
    (hopB : cfgB.operation = .getBalance) (hsrcB : cfgB.addressSource = .parameter)
    (haB : ¬cfgB.address = "")
    (cfgE : EthConfig) (hurlE : trimS cfgE.rpcUrl ≠ "")
    (hconnE : connect (trimS cfgE.rpcUrl) = .ok net)
    (hopE : cfgE.operation = .getERC20Balance)
    (hsrcE : cfgE.addressSourceErc20 = .parameter) (haE : ¬cfgE.addressErc20 = "")
    (cfgT : EthConfig) (hurlT : trimS cfgT.rpcUrl ≠ "")
    (hconnT : connect (trimS cfgT.rpcUrl) = .ok net)
    (hopT : cfgT.operation = .transfer)
    (cfgT2 : EthConfig) (hurlT2 : trimS cfgT2.rpcUrl ≠ "")
    (hconnT2 : connect (trimS cfgT2.rpcUrl) = .ok net)
    (hopT2 : cfgT2.operation = .transferERC20)
    (senv : SignEnv) (scfg : SignConfig) (hsurl : trimS scfg.rpcUrl = "") :
    ethExecute connect env cfgB [] =
      .ok [.bal { chainId := resolveChainId cfgB.chainIdParam, address := cfgB.address,
                  balanceWei := toString (env.balanceOf cfgB.address),
                  balanceEth := ddiv (roundToDouble ⟨env.balanceOf cfgB.address, 1⟩) lit1e18,
                  pairedItem := 0 }] ∧
    ethExecute connect env cfgE [] =
      .ok [.balErc20 { chainId := resolveChainId cfgE.chainIdParam, address := cfgE.addressErc20,
                       tokenAddress := cfgE.tokenAddress,
                       balanceWei := toString (env.erc20BalanceOf cfgE.tokenAddress cfgE.addressErc20),
                       balanceHuman := ddiv
                         (roundToDouble ⟨env.erc20BalanceOf cfgE.tokenAddress cfgE.addressErc20, 1⟩)
                         (pow10Double (env.erc20Decimals cfgE.tokenAddress)),
                       decimals := env.erc20Decimals cfgE.tokenAddress, pairedItem := 0 }] ∧
    ethExecute connect env cfgT [] = .error (.missingField 1 cfgT.privateKeyField) ∧
    ethExecute connect env cfgT2 [] = .error (.missingField 1 cfgT2.privateKeyField) ∧
    signExecute senv scfg [] = .ok [] := by
  refine ⟨?_, ?_, ?_, ?_, ?_⟩
  · rw [ethExecute_run connect env cfgB [] net hurlB hconnB (by simp [hopB])]
    simp [ethItems, ethItem, hopB, getBalanceItem, resolveAddress, hsrcB, haB, Except.map]
  · rw [ethExecute_run connect env cfgE [] net hurlE hconnE (by simp [hopE])]
    simp [ethItems, ethItem, hopE, getErc20BalanceItem, resolveAddressErc20, hsrcE, haE,
      Except.map]
  · rw [ethExecute_run connect env cfgT [] net hurlT hconnT (by simp [hopT])]
    simp [ethItems, ethItem, hopT, transferItem, lookupR, Except.map]
  · rw [ethExecute_run connect env cfgT2 [] net hurlT2 hconnT2 (by simp [hopT2])]
    simp [ethItems, ethItem, hopT2, transferErc20Item, lookupR, Except.map]
  · rw [signExecute_run senv scfg [] (Or.inl hsurl)]
    rfl

theorem C10_amended_witness :
    ethExecute okConn baseEnv baseCfg [] =
      .ok [.bal { chainId := resolveChainId baseCfg.chainIdParam, address := baseCfg.address,
                  balanceWei := toString (baseEnv.balanceOf baseCfg.address),
                  balanceEth := ddiv (roundToDouble ⟨baseEnv.balanceOf baseCfg.address, 1⟩) lit1e18,
                  pairedItem := 0 }] ∧
    ethExecute okConn baseEnv { baseCfg with operation := .getERC20Balance } [] =
      .ok [.balErc20 { chainId := resolveChainId baseCfg.chainIdParam, address := baseCfg.addressErc20,
                       tokenAddress := baseCfg.tokenAddress,
                       balanceWei := toString (baseEnv.erc20BalanceOf baseCfg.tokenAddress baseCfg.addressErc20),
                       balanceHuman := ddiv
                         (roundToDouble ⟨baseEnv.erc20BalanceOf baseCfg.tokenAddress baseCfg.addressErc20, 1⟩)
                         (pow10Double (baseEnv.erc20Decimals baseCfg.tokenAddress)),
                       decimals := baseEnv.erc20Decimals baseCfg.tokenAddress, pairedItem := 0 }] ∧
    ethExecute okConn baseEnv { baseCfg with operation := .transfer } [] =
      .error (.missingField 1 "privateKey") ∧
    ethExecute okConn baseEnv { baseCfg with operation := .transferERC20 } [] =
      .error (.missingField 1 "privateKey") ∧
    signExecute baseSignEnv baseSignCfg [] = .ok [] :=
  C10_amended okConn baseEnv { chainId := 1 }
    baseCfg (by decide) (by decide) (by decide) (by decide) (by decide)
    { baseCfg with operation := .getERC20Balance } (by decide) (by decide) (by decide)
      (by decide) (by decide)
    { baseCfg with operation := .transfer } (by decide) (by decide) (by decide)
    { baseCfg with operation := .transferERC20 } (by decide) (by decide) (by decide)
    baseSignEnv baseSignCfg (by decide)

end EthNodes
